import Mathlib

/-!
Verification of the dataframes engine: a shallow embedding of the typed
row-store verbs (lookup, transform, filter, mutate, gather, the legacy
lookup/reverse_lookup) and of the runtime-typed column-store prototype
(cbind/rbind/select and their in-place variants), with theorems checking
the specification's stated properties against the embedded code.

Rust `Vec<R>` is modelled as `List R`; rayon's order-preserving parallel
combinators (`par_iter().map`, `filter`, `filter_map`, `find_first`) are
modelled by the corresponding sequential list operations, which realise
exactly the order the source guarantees; `clone()` is the identity on
values.
-/

namespace Dataframes

/-- The typed dataframe of `src/dataframe/mod.rs`: an ordered collection
of records. The legacy dataframe of `src/lib.rs` has the same single-field
shape and is modelled by the same structure. -/
structure DataFrame (R : Type) where
  rows : List R
deriving DecidableEq, Repr

namespace DataFrame

/-- Rust `DataFrame::new`: create an empty dataframe. -/
def new (R : Type) : DataFrame R := ⟨[]⟩

/-- Rust `DataFrame::push`: append a record at the end. -/
def push {R : Type} (df : DataFrame R) (r : R) : DataFrame R :=
  ⟨df.rows ++ [r]⟩

/-- The body of canonical `lookup`'s `filter_map` closure
(`src/dataframe/mod.rs` lines 74-94): find the first row of `other`
matching `s` (rayon `find_first` = leftmost in original order); on a match
emit `transform (s, item)`, otherwise emit `ctor ()` when a constructor was
supplied, otherwise skip the row. -/
def lookupRow {R O N : Type} (other : DataFrame O)
    (predicate : R × O → Bool) (transform : R × O → N)
    (constructor : Option (Unit → N)) (s : R) : Option N :=
  match other.rows.find? (fun p => predicate (s, p)) with
  | some item => some (transform (s, item))
  | none =>
    match constructor with
    | some ctor => some (ctor ())
    | none => none

/-- Canonical `DataFrame::lookup` (`src/dataframe/mod.rs` lines 56-97):
`par_iter().filter_map(..).collect()` over `self.rows`, order-preserving. -/
def lookup {R O N : Type} (self : DataFrame R) (other : DataFrame O)
    (predicate : R × O → Bool) (transform : R × O → N)
    (constructor : Option (Unit → N)) : DataFrame N :=
  ⟨self.rows.filterMap (lookupRow other predicate transform constructor)⟩

/-- Rust `DataFrame::transform` (`src/dataframe/mod.rs` lines 101-107):
clone each row and map the operation over it, order-preserving. -/
def transform {R N : Type} (self : DataFrame R) (t : R → N) : DataFrame N :=
  ⟨self.rows.map t⟩

/-- Rust `DataFrame::filter` (`src/filter/mod.rs` lines 11-20): keep exactly
the rows satisfying the predicate, cloning only those. -/
def filter {R : Type} (self : DataFrame R) (p : R → Bool) : DataFrame R :=
  ⟨self.rows.filter p⟩

/-- Rust `DataFrame::mutate` (`src/mutate/mod.rs` lines 11-14): defined in the
source as `self.transform(|mut r| { mutation(&mut r); r })`; the in-place
edit on one row is modelled by the function `mutation : R → R`. -/
def mutate {R : Type} (self : DataFrame R) (mutation : R → R) : DataFrame R :=
  self.transform (fun r => mutation r)

/-- Rust `DataFrame::gather` (`src/gather/mod.rs` lines 38-72): for each input
row in order, clone it, extract the (field-name, value) pairs, and for each
pair push a fresh clone of the row updated with that pair. The
`&'static str` field name's `to_string()` conversion is the identity on the
modelled `String`. -/
def gather {R V : Type} (self : DataFrame R)
    (item : (R → List (String × V)) × (R → String → V → R)) : DataFrame R :=
  let collect := item.1
  let update := item.2
  ⟨self.rows.flatMap (fun record =>
    (collect record).map (fun collected => update record collected.1 collected.2))⟩

end DataFrame

-- The legacy monolithic dataframe verbs of `src/lib.rs`.
namespace Legacy

/-- Legacy `DataFrame::lookup` (`src/lib.rs` lines 59-84): `par_iter().map`
over `self.rows`; for each row, `find_first` a match in `other` and apply
`op`, otherwise call the mandatory `default` constructor. -/
def lookup {R O N : Type} (self : DataFrame R) (other : DataFrame O)
    (p : R → O → Bool) (op : R → O → N) (default : Unit → N) : DataFrame N :=
  ⟨self.rows.map (fun s =>
    match other.rows.find? (fun o => p s o) with
    | some item => op s item
    | none => default ())⟩

/-- Legacy `DataFrame::reverse_lookup` (`src/lib.rs` lines 88-104):
`other.lookup(self, |s,o| p(o,s), |s,o| op(o,s), default)`. -/
def reverse_lookup {R O N : Type} (self : DataFrame R) (other : DataFrame O)
    (p : R → O → Bool) (op : R → O → N) (default : Unit → N) : DataFrame N :=
  Legacy.lookup other self (fun s o => p o s) (fun s o => op o s) default

end Legacy

-- The runtime-typed column-store prototype of `src/dynamic/mod.rs`.
namespace Dynamic

/-- Rust `Column` (`src/dynamic/mod.rs` lines 11-17): a dynamically-typed
column. `f32` and `f64` cells are modelled by Lean `Float`; the two
variants stay distinct constructors as in the source; the source's
`Bool` variant is named `Boolean` here (its `variant_str`) because the
constructor would otherwise shadow Lean's `Bool` type. -/
inductive Column where
  | Float (v : List Float) : Column
  | Double (v : List Float) : Column
  | Factor (v : List String) : Column
  | Boolean (v : List Bool) : Column

/-- Rust `Column::len` (`src/dynamic/mod.rs` lines 22-32). -/
def Column.len : Column → Nat
  | .Float v => v.length
  | .Double v => v.length
  | .Factor v => v.length
  | .Boolean v => v.length

/-- Rust `Column::variant_str` (`src/dynamic/mod.rs` lines 35-45). -/
def Column.variant_str : Column → String
  | .Float _ => "Float"
  | .Double _ => "Double"
  | .Factor _ => "Factor"
  | .Boolean _ => "Boolean"

/-- The `match` over variant pairs used by `rbind_ck_base`
(`src/dynamic/mod.rs` lines 166-182): true exactly on the four `continue`
arms. -/
def Column.sameVariant : Column → Column → Bool
  | .Float _, .Float _ => true
  | .Double _, .Double _ => true
  | .Factor _, .Factor _ => true
  | .Boolean _, .Boolean _ => true
  | _, _ => false

/-- The `v.extend(o.iter())` match of `rbind`/`rbind_mut`
(`src/dynamic/mod.rs` lines 212-221 and 237-246): appends `o`'s cells onto
`v` when the variants agree; `none` models the `panic!("invalid rbind")`
arm. -/
def Column.extendCol : Column → Column → Option Column
  | .Float v, .Float o => some (.Float (v ++ o))
  | .Double v, .Double o => some (.Double (v ++ o))
  | .Factor v, .Factor o => some (.Factor (v ++ o))
  | .Boolean v, .Boolean o => some (.Boolean (v ++ o))
  | _, _ => none

/-- The column dictionary `HashMap<String, Column>`, modelled as an
association list with `HashMap` insert/lookup/remove semantics. -/
abbrev Columns := List (String × Column)

/-- Rust `HashMap::contains_key`. -/
def containsKey (cols : Columns) (k : String) : Bool :=
  cols.any (fun kv => kv.1 == k)

/-- Rust `HashMap` indexing: the value stored under `k`, if any. -/
def lookupCol (cols : Columns) (k : String) : Option Column :=
  (cols.find? (fun kv => kv.1 == k)).map Prod.snd

/-- Rust `HashMap::insert`: replace the value under an existing key, otherwise
add the binding. -/
def insertCol (cols : Columns) (k : String) (v : Column) : Columns :=
  if containsKey cols k then
    cols.map (fun kv => if kv.1 == k then (k, v) else kv)
  else
    cols ++ [(k, v)]

/-- Rust `HashMap::remove`. -/
def removeCol (cols : Columns) (k : String) : Columns :=
  cols.filter (fun kv => kv.1 != k)

/-- The dynamic `DataFrame` (`src/dynamic/mod.rs` lines 49-54): a
name-indexed column dictionary plus a row-count field. -/
structure DataFrame where
  columns : Columns
  nrow : Nat

/-- Rust `Error` (`src/dynamic/mod.rs` lines 61-69), with an extra constructor
modelling a `panic!` abort (which in Rust is not a `Result::Err` but is a
distinct failure outcome). -/
inductive Error where
  | General (msg : String) : Error
  | GeneralBuf (msg : String) : Error
  | Panic (msg : String) : Error

/-- Rust `DataFrame::new` = `Default::default()` (`src/dynamic/mod.rs`
lines 91-94 and 301-311). -/
def DataFrame.new : DataFrame :=
  { columns := [], nrow := 0 }

/-- Rust `DataFrame::cbind_ck` (`src/dynamic/mod.rs` lines 97-114): row counts
must agree and no column name of `other` may already be present in
`self`. -/
def DataFrame.cbind_ck (self other : DataFrame) : Except Error Unit :=
  if self.nrow ≠ other.nrow then
    .error (.General "Cannot cbind dataframes with differing number of rows.")
  else if other.columns.any (fun kv => containsKey self.columns kv.1) then
    .error (.General "Cannot cbind dataframes with conflicting column names.")
  else
    .ok ()

/-- Rust `DataFrame::cbind` (`src/dynamic/mod.rs` lines 117-135): check, then
insert all of `self`'s columns and then all of `other`'s into a fresh frame
whose `nrow` is `self.nrow`. -/
def DataFrame.cbind (self other : DataFrame) : Except Error DataFrame :=
  match self.cbind_ck other with
  | .error e => .error e
  | .ok _ =>
    let cols1 := self.columns.foldl (fun acc kv => insertCol acc kv.1 kv.2) []
    let cols2 := other.columns.foldl (fun acc kv => insertCol acc kv.1 kv.2) cols1
    .ok { columns := cols2, nrow := self.nrow }

/-- Rust `DataFrame::cbind_mut` (`src/dynamic/mod.rs` lines 138-151): check,
then insert `other`'s columns into `self`. The `&mut self` receiver is
modelled by returning the post-call receiver alongside the `Result`. -/
def DataFrame.cbind_mut (self other : DataFrame) : Except Error Unit × DataFrame :=
  match self.cbind_ck other with
  | .error e => (.error e, self)
  | .ok _ =>
    (.ok (), { self with
      columns := other.columns.foldl (fun acc kv => insertCol acc kv.1 kv.2) self.columns })

/-- The loop body of `rbind_ck_base` (`src/dynamic/mod.rs` lines 153-186):
every column of `a` must exist in `b` with the same variant. -/
def rbind_ck_base_go (b : DataFrame) : List (String × Column) → Except Error Unit
  | [] => .ok ()
  | (key, acol) :: rest =>
    match lookupCol b.columns key with
    | none =>
      .error (.GeneralBuf ("Column \x60" ++ key ++ "\x60 is present in self but not in other"))
    | some bcol =>
      if acol.sameVariant bcol then
        rbind_ck_base_go b rest
      else
        .error (.GeneralBuf ("Column \x60" ++ key ++ "\x60 is a \x60" ++ acol.variant_str
          ++ "\x60 in self, but a \x60" ++ bcol.variant_str ++ "\x60 in other."))

/-- Rust `DataFrame::rbind_ck_base`. -/
def DataFrame.rbind_ck_base (a b : DataFrame) : Except Error Unit :=
  rbind_ck_base_go b a.columns

/-- Rust `DataFrame::rbind_ck` (`src/dynamic/mod.rs` lines 188-197): the base
check in both directions. -/
def DataFrame.rbind_ck (self other : DataFrame) : Except Error Unit :=
  match DataFrame.rbind_ck_base self other with
  | .error e => .error e
  | .ok _ => DataFrame.rbind_ck_base other self

/-- The column loop of `rbind`/`rbind_mut` (`src/dynamic/mod.rs`
lines 207-224 and 234-247): extend each of `self`'s columns with
`other`'s column of the same name; a missing or mismatched column hits the
`panic!("invalid rbind")` arm (unreachable after `rbind_ck`). -/
def rbind_go (other : DataFrame) : List (String × Column) → Except Error Columns
  | [] => .ok []
  | (key, val) :: rest =>
    match lookupCol other.columns key with
    | none => .error (.Panic "invalid rbind")
    | some ocol =>
      match Column.extendCol val ocol with
      | none => .error (.Panic "invalid rbind")
      | some newcol =>
        match rbind_go other rest with
        | .error e => .error e
        | .ok cols => .ok ((key, newcol) :: cols)

/-- Rust `DataFrame::rbind` (`src/dynamic/mod.rs` lines 200-227): check, then
build a fresh frame with the extended columns and `nrow` the sum. -/
def DataFrame.rbind (self other : DataFrame) : Except Error DataFrame :=
  match self.rbind_ck other with
  | .error e => .error e
  | .ok _ =>
    match rbind_go other self.columns with
    | .error e => .error e
    | .ok cols => .ok { columns := cols, nrow := self.nrow + other.nrow }

/-- Rust `DataFrame::rbind_mut` (`src/dynamic/mod.rs` lines 230-251): check,
then extend `self`'s columns in place and add `other.nrow` to the row
count. The receiver is returned alongside the `Result`; a check failure
returns before anything is mutated. -/
def DataFrame.rbind_mut (self other : DataFrame) : Except Error Unit × DataFrame :=
  match self.rbind_ck other with
  | .error e => (.error e, self)
  | .ok _ =>
    match rbind_go other self.columns with
    | .error e => (.error e, self)
    | .ok cols => (.ok (), { columns := cols, nrow := self.nrow + other.nrow })

/-- Rust `DataFrame::select_ck` (`src/dynamic/mod.rs` lines 253-264): every
requested column name must be present. -/
def DataFrame.select_ck (self : DataFrame) : List String → Except Error Unit
  | [] => .ok ()
  | col :: rest =>
    if containsKey self.columns col then
      self.select_ck rest
    else
      .error (.GeneralBuf ("Column \x60" ++ col ++ "\x60 is not present in dataframe."))

/-- The column-copying loop of `select` (`src/dynamic/mod.rs`
lines 272-275); indexing a missing key would panic (unreachable after
`select_ck`). -/
def select_go (self : DataFrame) : List String → Columns → Except Error Columns
  | [], acc => .ok acc
  | col :: rest, acc =>
    match lookupCol self.columns col with
    | none => .error (.Panic "key not found")
    | some c => select_go self rest (insertCol acc col c)

/-- Rust `DataFrame::select` (`src/dynamic/mod.rs` lines 267-279): check, copy
the requested columns into a fresh frame, set `nrow` to `self.nrow`. -/
def DataFrame.select (self : DataFrame) (columns : List String) : Except Error DataFrame :=
  match self.select_ck columns with
  | .error e => .error e
  | .ok _ =>
    match select_go self columns [] with
    | .error e => .error e
    | .ok cols => .ok { columns := cols, nrow := self.nrow }

/-- Rust `DataFrame::select_mut` (`src/dynamic/mod.rs` lines 282-292): check,
then remove each listed column from `self` (the loop removes exactly the
named columns). -/
def DataFrame.select_mut (self : DataFrame) (columns : List String) :
    Except Error Unit × DataFrame :=
  match self.select_ck columns with
  | .error e => (.error e, self)
  | .ok _ =>
    (.ok (), { self with
      columns := columns.foldl (fun acc col => removeCol acc col) self.columns })

/-- The row-count bookkeeping invariant of the dynamic frame: every stored
column has exactly `nrow` cells. -/
def DataFrame.inv (df : DataFrame) : Prop :=
  ∀ kv ∈ df.columns, Column.len kv.2 = df.nrow

/-- Returns `true` exactly when the result is an `Err`. -/
def isErr {α : Type} : Except Error α → Bool
  | .error _ => true
  | .ok _ => false

end Dynamic

-- Concrete record types and stores for the spec's worked lookup scenario.
namespace Scenario

/-- Source-store record `{id, v}` of the spec's concrete scenario. -/
structure RecA where
  id : Nat
  v : Nat
deriving DecidableEq, Repr

/-- Second-store record `{id, w}` of the spec's concrete scenario. -/
structure RecB where
  id : Nat
  w : Nat
deriving DecidableEq, Repr

/-- Output record `{id, v, w}` of the spec's concrete scenario. -/
structure RecC where
  id : Nat
  v : Nat
  w : Nat
deriving DecidableEq, Repr

/-- Store A = `[{id:1,v:10},{id:2,v:20}]`. -/
def dfA : DataFrame RecA := ⟨[⟨1, 10⟩, ⟨2, 20⟩]⟩

/-- Store B = `[{id:2,w:200},{id:3,w:300}]`. -/
def dfB : DataFrame RecB := ⟨[⟨2, 200⟩, ⟨3, 300⟩]⟩

/-- The id-equality predicate `|a,b| a.id == b.id`. -/
def predAB : RecA × RecB → Bool := fun x => x.1.id == x.2.id

/-- The combiner `|a,b| {id:a.id, v:a.v, w:b.w}`. -/
def combAB : RecA × RecB → RecC := fun x => ⟨x.1.id, x.1.v, x.2.w⟩

/-- The default constructor producing `{id:0,v:0,w:0}`. -/
def ctorC : Unit → RecC := fun _ => ⟨0, 0, 0⟩

end Scenario

-- Concrete dynamic frames exercising the column-store operations.
namespace Fixtures

/-- A one-column boolean frame with one row. -/
def dynA : Dynamic.DataFrame := { columns := [("x", .Boolean [true])], nrow := 1 }

/-- A frame sharing `dynA`'s column name at a different type and with a
different row count: incompatible with `dynA` for both cbind and rbind. -/
def dynB : Dynamic.DataFrame := { columns := [("x", .Factor ["a", "b"])], nrow := 2 }

/-- A two-row boolean frame. -/
def dynC : Dynamic.DataFrame := { columns := [("x", .Boolean [true, false])], nrow := 2 }

/-- A two-row factor frame with a fresh column name: cbind-compatible with
`dynC`. -/
def dynD : Dynamic.DataFrame := { columns := [("y", .Factor ["a", "b"])], nrow := 2 }

end Fixtures

/-! Theorems. -/

/-- List `find?` returns the element at the least index satisfying the
predicate. -/
theorem find?_eq_get_of_first {α : Type} (p : α → Bool) (l : List α)
    (i : Nat) (hi : i < l.length) (hmatch : p (l.get ⟨i, hi⟩) = true)
    (hfirst : ∀ j (hj : j < l.length), j < i → p (l.get ⟨j, hj⟩) = false) :
    l.find? p = some (l.get ⟨i, hi⟩) := by
  induction l generalizing i with
  | nil => simp at hi
  | cons a t ih =>
    cases i with
    | zero =>
      simp only [List.get] at hmatch
      simp [List.find?, hmatch]
    | succ n =>
      have ha : p a = false := hfirst 0 (by simp) (by omega)
      have hn : n < t.length := by simpa using hi
      have hm : p (t.get ⟨n, hn⟩) = true := hmatch
      have hf : ∀ j (hj : j < t.length), j < n → p (t.get ⟨j, hj⟩) = false := by
        intro j hj hjn
        exact hfirst (j + 1) (by simpa using Nat.succ_lt_succ hj) (by omega)
      simp only [List.find?, ha]
      exact ih n hn hm hf

/-- Frames with equal row lists are equal. -/
theorem DataFrame.eq_of_rows_eq {R : Type} {a b : DataFrame R}
    (h : a.rows = b.rows) : a = b := by
  cases a
  cases b
  simpa using h

/-- C1: for every source store `self`, second store `other`, predicate,
combiner and default option, and every row `s` of `self` whose first match
in `other`'s original insertion order sits at index `i`, lookup's per-row
result for `s` is `transform (s, o*)` with `o*` that first matching row;
the output is the order-preserving `filter_map` of that per-row function
over `self`; and re-running lookup on identical inputs yields identical
output, including identical tie-break choices. -/
theorem lookup_first_match_deterministic {R O N : Type}
    (self : DataFrame R) (other : DataFrame O)
    (predicate : R × O → Bool) (transform : R × O → N)
    (constructor : Option (Unit → N)) (s : R) (hs : s ∈ self.rows)
    (i : Nat) (hi : i < other.rows.length)
    (hmatch : predicate (s, other.rows.get ⟨i, hi⟩) = true)
    (hfirst : ∀ j (hj : j < other.rows.length), j < i →
      predicate (s, other.rows.get ⟨j, hj⟩) = false) :
    DataFrame.lookupRow other predicate transform constructor s
        = some (transform (s, other.rows.get ⟨i, hi⟩))
      ∧ (self.lookup other predicate transform constructor).rows
        = self.rows.filterMap (DataFrame.lookupRow other predicate transform constructor)
      ∧ ∀ (self2 : DataFrame R) (other2 : DataFrame O),
          self2.rows = self.rows → other2.rows = other.rows →
          self2.lookup other2 predicate transform constructor
            = self.lookup other predicate transform constructor := by
  refine ⟨?_, rfl, ?_⟩
  · unfold DataFrame.lookupRow
    rw [find?_eq_get_of_first (fun o => predicate (s, o)) other.rows i hi hmatch hfirst]
  · intro self2 other2 h1 h2
    have e1 : self2 = self := DataFrame.eq_of_rows_eq h1
    have e2 : other2 = other := DataFrame.eq_of_rows_eq h2
    rw [e1, e2]

/-- Witness for C1: in the spec's concrete scenario, row `{id:2,v:20}`'s
first match is `{id:2,w:200}` at index 0 of store B, and lookup emits the
combined row `{id:2,v:20,w:200}` for it. -/
theorem lookup_first_match_deterministic_witness :
    DataFrame.lookupRow Scenario.dfB Scenario.predAB Scenario.combAB
        (some Scenario.ctorC) ⟨2, 20⟩
      = some ⟨2, 20, 200⟩ := by
  have h := (lookup_first_match_deterministic Scenario.dfA Scenario.dfB
    Scenario.predAB Scenario.combAB (some Scenario.ctorC) ⟨2, 20⟩ (by decide)
    0 (by decide) (by decide) (by intro j hj hij; omega)).1
  exact h

/-- A `filterMap` by an everywhere-`some` function is a `map`. -/
theorem filterMap_eq_map_of_some {α β : Type} (f : α → Option β) (g : α → β)
    (l : List α) (h : ∀ x, f x = some (g x)) : l.filterMap f = l.map g := by
  induction l with
  | nil => rfl
  | cons a t ih => simp [List.filterMap_cons, h a, ih]

/-- A `filterMap` keeps every element exactly when the function is `some`
on every element of the list. -/
theorem length_filterMap_eq_iff {α β : Type} (f : α → Option β) (l : List α) :
    (l.filterMap f).length = l.length ↔ ∀ x ∈ l, (f x).isSome = true := by
  induction l with
  | nil => simp
  | cons a t ih =>
    cases hfa : f a with
    | none =>
      simp only [List.filterMap_cons, hfa, List.length_cons]
      constructor
      · intro h
        exfalso
        have hle := List.length_filterMap_le f t
        omega
      · intro h
        have := h a (by simp)
        rw [hfa] at this
        simp at this
    | some b =>
      simp only [List.filterMap_cons, hfa, List.length_cons]
      constructor
      · intro h
        intro x hx
        rcases List.mem_cons.mp hx with hx | hx
        · rw [hx, hfa]; rfl
        · exact (ih.mp (by omega)) x hx
      · intro h
        have := ih.mpr (fun x hx => h x (List.mem_cons_of_mem a hx))
        omega

/-- C2: a matched source row contributes `combine(s, match)` at its own
position, an unmatched row contributes `default()` in place when a
default constructor is supplied (the output is then an order-preserving
`map`), and vanishes when none is (the output is the order-preserving
`filterMap` that drops exactly the unmatched rows); on the spec's concrete
stores A and B with the id-equality predicate, lookup without a default
yields exactly `[{id:2,v:20,w:200}]` and with default `{id:0,v:0,w:0}`
yields `[{id:0,v:0,w:0}, {id:2,v:20,w:200}]` in that order. -/
theorem lookup_match_default_drop_semantics :
    (∀ (R O N : Type) (self : DataFrame R) (other : DataFrame O)
        (predicate : R × O → Bool) (transform : R × O → N) (d : Unit → N),
        (self.lookup other predicate transform (some d)).rows
          = self.rows.map (fun s =>
              match other.rows.find? (fun o => predicate (s, o)) with
              | some o => transform (s, o)
              | none => d ()))
    ∧ (∀ (R O N : Type) (self : DataFrame R) (other : DataFrame O)
        (predicate : R × O → Bool) (transform : R × O → N),
        (self.lookup other predicate transform (none : Option (Unit → N))).rows
          = self.rows.filterMap (fun s =>
              (other.rows.find? (fun o => predicate (s, o))).map
                (fun o => transform (s, o))))
    ∧ (Scenario.dfA.lookup Scenario.dfB Scenario.predAB Scenario.combAB
        (none : Option (Unit → Scenario.RecC))).rows = [⟨2, 20, 200⟩]
    ∧ (Scenario.dfA.lookup Scenario.dfB Scenario.predAB Scenario.combAB
        (some Scenario.ctorC)).rows = [⟨0, 0, 0⟩, ⟨2, 20, 200⟩] := by
  refine ⟨?_, ?_, by decide, by decide⟩
  · intro R O N self other predicate transform d
    apply filterMap_eq_map_of_some
    intro s
    simp only [DataFrame.lookupRow]
    cases h : other.rows.find? (fun o => predicate (s, o)) with
    | some item => simp [h]
    | none => simp [h]
  · intro R O N self other predicate transform
    have hfun : DataFrame.lookupRow other predicate transform
        (none : Option (Unit → N))
          = fun s => (other.rows.find? (fun o => predicate (s, o))).map
              (fun o => transform (s, o)) := by
      funext s
      simp only [DataFrame.lookupRow]
      cases h : other.rows.find? (fun o => predicate (s, o)) with
      | some item => simp [h]
      | none => simp [h]
    show List.filterMap _ _ = List.filterMap _ _
    rw [hfun]

/-- C3 counterexample: on the one-row source `[{id:1,v:10}]` against
`[{id:1,w:100}]` every row has a match, so lookup *without* a default
already returns `|self|` rows; "output length equals `|self|` if and only
if a default constructor is supplied" is false at this input. -/
theorem lookup_length_iff_default_counterexample :
    ¬ (((DataFrame.mk [Scenario.RecA.mk 1 10]).lookup
          (DataFrame.mk [Scenario.RecB.mk 1 100]) Scenario.predAB Scenario.combAB
          (none : Option (Unit → Scenario.RecC))).rows.length
        = [Scenario.RecA.mk 1 10].length
      ↔ (none : Option (Unit → Scenario.RecC)).isSome = true) := by
  decide

/-- C3 (amended): lookup's output length is at most `|self|`; when a
default constructor is supplied it equals `|self|`; and in general it
equals `|self|` exactly when a default constructor is supplied or every
row of `self` has a match in `other`. -/
theorem lookup_length_law {R O N : Type} (self : DataFrame R) (other : DataFrame O)
    (predicate : R × O → Bool) (transform : R × O → N)
    (constructor : Option (Unit → N)) :
    (self.lookup other predicate transform constructor).rows.length ≤ self.rows.length
    ∧ (constructor.isSome = true →
        (self.lookup other predicate transform constructor).rows.length
          = self.rows.length)
    ∧ ((self.lookup other predicate transform constructor).rows.length
          = self.rows.length
        ↔ constructor.isSome = true
          ∨ ∀ s ∈ self.rows,
              (other.rows.find? (fun o => predicate (s, o))).isSome = true) := by
  have hiff := length_filterMap_eq_iff
    (DataFrame.lookupRow other predicate transform constructor) self.rows
  refine ⟨List.length_filterMap_le _ _, ?_, ?_⟩
  · intro hsome
    apply hiff.mpr
    intro s _
    simp only [DataFrame.lookupRow]
    cases h : other.rows.find? (fun o => predicate (s, o)) with
    | some item => simp
    | none =>
      cases hc : constructor with
      | some ctor => simp
      | none => rw [hc] at hsome; simp at hsome
  · show (List.filterMap (DataFrame.lookupRow other predicate transform constructor)
        self.rows).length = self.rows.length ↔ _
    rw [hiff]
    constructor
    · intro h
      cases hc : constructor with
      | some ctor => exact Or.inl rfl
      | none =>
        refine Or.inr (fun s hs => ?_)
        have := h s hs
        simp only [DataFrame.lookupRow, hc] at this
        cases hf : other.rows.find? (fun o => predicate (s, o)) with
        | some item => simp
        | none => rw [hf] at this; simp at this
    · intro h s hs
      simp only [DataFrame.lookupRow]
      cases hf : other.rows.find? (fun o => predicate (s, o)) with
      | some item => simp
      | none =>
        rcases h with h | h
        · cases hc : constructor with
          | some ctor => simp
          | none => rw [hc] at h; simp at h
        · have := h s hs
          rw [hf] at this
          simp at this

/-- Witness for C3 (amended): on the concrete scenario with the default
constructor supplied, lookup keeps exactly `|self| = 2` rows. -/
theorem lookup_length_law_witness :
    (Scenario.dfA.lookup Scenario.dfB Scenario.predAB Scenario.combAB
        (some Scenario.ctorC)).rows.length = Scenario.dfA.rows.length := by
  exact (lookup_length_law Scenario.dfA Scenario.dfB Scenario.predAB
    Scenario.combAB (some Scenario.ctorC)).2.1 rfl

/-- C4: filter keeps exactly the rows on which the predicate is true, as
an order-preserving sublist of the input, and its length is the number of
rows satisfying the predicate. -/
theorem filter_exact_order_length {R : Type} (store : DataFrame R) (p : R → Bool) :
    (store.filter p).rows = store.rows.filter p
    ∧ List.Sublist (store.filter p).rows store.rows
    ∧ (store.filter p).rows.length = store.rows.countP p := by
  refine ⟨rfl, List.filter_sublist _, ?_⟩
  simp [DataFrame.filter, List.countP_eq_length_filter]

/-- C5: gather's output is the concatenation, over input rows in original
order, of one output row per extracted pair in yield order, each obtained
by applying the update to a fresh duplicate of the input row; its length
is the sum over input rows of the number of extracted pairs (so a row
whose extraction is empty contributes nothing). -/
theorem gather_concat_length_law {R V : Type} (store : DataFrame R)
    (collect : R → List (String × V)) (update : R → String → V → R) :
    (store.gather (collect, update)).rows
      = store.rows.flatMap (fun record =>
          (collect record).map (fun c => update record c.1 c.2))
    ∧ (store.gather (collect, update)).rows.length
      = (store.rows.map (fun record => (collect record).length)).sum := by
  refine ⟨rfl, ?_⟩
  show (store.rows.flatMap (fun record =>
      (collect record).map (fun c => update record c.1 c.2))).length
    = (store.rows.map (fun record => (collect record).length)).sum
  rw [List.length_flatMap]
  have hfun : (List.length ∘ fun record =>
      (collect record).map (fun c => update record c.1 c.2))
        = fun record => (collect record).length := by
    funext record
    simp
  rw [hfun]

/-- C6: mutate is exactly transform with the in-place edit applied to a
copy of each row (this is its definition in the source), it preserves
input order and length, and the no-op mutation returns a store with the
very same row list, the source store being untouched. -/
theorem mutate_eq_transform_noop_identity {R : Type} (store : DataFrame R)
    (m : R → R) :
    store.mutate m = store.transform (fun r => m r)
    ∧ (store.mutate m).rows = store.rows.map m
    ∧ (store.mutate m).rows.length = store.rows.length
    ∧ (store.mutate (fun r => r)).rows = store.rows := by
  refine ⟨rfl, rfl, ?_, ?_⟩
  · simp [DataFrame.mutate, DataFrame.transform]
  · simp [DataFrame.mutate, DataFrame.transform]

/-- C8: reverse_lookup is lookup with the two stores swapped and the
predicate/combiner argument order flipped — same rows, same order. -/
theorem reverse_lookup_duality {R O N : Type} (a : DataFrame R) (b : DataFrame O)
    (pred : R → O → Bool) (comb : R → O → N) (d : Unit → N) :
    Legacy.reverse_lookup a b pred comb d
      = Legacy.lookup b a (fun o s => pred s o) (fun o s => comb s o) d
    ∧ (Legacy.reverse_lookup a b pred comb d).rows
      = (Legacy.lookup b a (fun o s => pred s o) (fun o s => comb s o) d).rows :=
  ⟨rfl, rfl⟩

/-- C9: the legacy monolithic lookup with its mandatory default equals the
canonical lookup invoked with `constructor = Some(default)` on every
input, and consequently never drops a source row: its output length is
always `|self|`. -/
theorem legacy_lookup_refines_canonical {R O N : Type} (self : DataFrame R)
    (other : DataFrame O) (p : R → O → Bool) (op : R → O → N) (d : Unit → N) :
    Legacy.lookup self other p op d
      = self.lookup other (fun x => p x.1 x.2) (fun x => op x.1 x.2) (some d)
    ∧ (Legacy.lookup self other p op d).rows.length = self.rows.length := by
  constructor
  · apply DataFrame.eq_of_rows_eq
    show self.rows.map _ = self.rows.filterMap _
    rw [filterMap_eq_map_of_some
      (DataFrame.lookupRow other (fun x => p x.1 x.2) (fun x => op x.1 x.2) (some d))
      (fun s =>
        match other.rows.find? (fun o => p s o) with
        | some item => op s item
        | none => d ())]
    intro s
    simp only [DataFrame.lookupRow]
    cases h : other.rows.find? (fun o => p s o) with
    | some item => simp [h]
    | none => simp [h]
  · simp [Legacy.lookup]

namespace Dynamic

/-- A passing cbind check implies equal row counts. -/
theorem cbind_ck_ok_nrow (a b : DataFrame) (h : a.cbind_ck b = .ok ()) :
    a.nrow = b.nrow := by
  unfold DataFrame.cbind_ck at h
  by_cases hn : a.nrow = b.nrow
  · exact hn
  · simp [hn] at h

/-- A passing cbind check implies no shared column name. -/
theorem cbind_ck_ok_disjoint (a b : DataFrame) (h : a.cbind_ck b = .ok ()) :
    ∀ kv ∈ b.columns, containsKey a.columns kv.1 = false := by
  unfold DataFrame.cbind_ck at h
  by_cases hn : a.nrow = b.nrow
  · by_cases hd : b.columns.any (fun kv => containsKey a.columns kv.1) = true
    · simp [hn, hd] at h
    · intro kv hkv
      by_cases hk : containsKey a.columns kv.1 = true
      · exact absurd (List.any_eq_true.mpr ⟨kv, hkv, hk⟩) hd
      · simpa using hk
  · simp [hn] at h

/-- A failing cbind check leaves `cbind_mut`'s receiver untouched and
propagates the error. -/
theorem cbind_mut_of_ck_err (a b : DataFrame) (h : isErr (a.cbind_ck b) = true) :
    isErr (a.cbind_mut b).1 = true ∧ (a.cbind_mut b).2 = a := by
  unfold DataFrame.cbind_mut
  cases hck : a.cbind_ck b with
  | error e => exact ⟨rfl, rfl⟩
  | ok u => rw [hck] at h; simp [isErr] at h

/-- A passing base rbind check means every column of the left frame exists
in the right frame with the same variant. -/
theorem rbind_ck_base_go_ok (b : DataFrame) (l : List (String × Column))
    (h : rbind_ck_base_go b l = .ok ()) :
    ∀ kv ∈ l, ∃ c, lookupCol b.columns kv.1 = some c
      ∧ Column.sameVariant kv.2 c = true := by
  induction l with
  | nil => intro kv hkv; simp at hkv
  | cons a t ih =>
    intro kv hkv
    obtain ⟨key, acol⟩ := a
    unfold rbind_ck_base_go at h
    cases hl : lookupCol b.columns key with
    | none => rw [hl] at h; simp at h
    | some bcol =>
      rw [hl] at h
      by_cases hv : Column.sameVariant acol bcol = true
      · simp only [hv, if_true] at h
        rcases List.mem_cons.mp hkv with hkv | hkv
        · subst hkv; exact ⟨bcol, hl, hv⟩
        · exact ih h kv hkv
      · simp [hv] at h

/-- A failing rbind check leaves `rbind_mut`'s receiver untouched and
propagates the error. -/
theorem rbind_mut_of_ck_err (a b : DataFrame) (h : isErr (a.rbind_ck b) = true) :
    isErr (a.rbind_mut b).1 = true ∧ (a.rbind_mut b).2 = a := by
  unfold DataFrame.rbind_mut
  cases hck : a.rbind_ck b with
  | error e => exact ⟨rfl, rfl⟩
  | ok u => rw [hck] at h; simp [isErr] at h

/-- An `Except Error Unit` is `ok ()` or an error. -/
theorem except_unit_ok_or_err (x : Except Error Unit) :
    x = .ok () ∨ isErr x = true := by
  cases x with
  | error e => exact Or.inr rfl
  | ok u => cases u; exact Or.inl rfl

end Dynamic

/-- C7: for the column-store's structural concatenations, whenever the
inputs are incompatible — differing row counts or a duplicate column name
for cbind; a missing column or a column stored at a different type for
rbind, in either direction — the in-place operation returns the check's
descriptive error and the receiver is returned completely unchanged: the
compatibility check runs before anything is mutated, so no half-applied
frame is observable. -/
theorem dynamic_bind_check_before_mutate (a b : Dynamic.DataFrame) :
    (∀ e, a.cbind_ck b = .error e → a.cbind_mut b = (.error e, a))
    ∧ (∀ e, a.rbind_ck b = .error e → a.rbind_mut b = (.error e, a))
    ∧ (a.nrow ≠ b.nrow →
        Dynamic.isErr (a.cbind_mut b).1 = true ∧ (a.cbind_mut b).2 = a)
    ∧ ((∃ kv ∈ b.columns, Dynamic.containsKey a.columns kv.1 = true) →
        Dynamic.isErr (a.cbind_mut b).1 = true ∧ (a.cbind_mut b).2 = a)
    ∧ ((∃ kv ∈ a.columns, ∀ c, ¬(Dynamic.lookupCol b.columns kv.1 = some c
          ∧ Dynamic.Column.sameVariant kv.2 c = true)) →
        Dynamic.isErr (a.rbind_mut b).1 = true ∧ (a.rbind_mut b).2 = a)
    ∧ ((∃ kv ∈ b.columns, ∀ c, ¬(Dynamic.lookupCol a.columns kv.1 = some c
          ∧ Dynamic.Column.sameVariant kv.2 c = true)) →
        Dynamic.isErr (a.rbind_mut b).1 = true ∧ (a.rbind_mut b).2 = a) := by
  refine ⟨?_, ?_, ?_, ?_, ?_, ?_⟩
  · intro e h
    unfold Dynamic.DataFrame.cbind_mut
    rw [h]
  · intro e h
    unfold Dynamic.DataFrame.rbind_mut
    rw [h]
  · intro hn
    apply Dynamic.cbind_mut_of_ck_err
    rcases Dynamic.except_unit_ok_or_err (a.cbind_ck b) with hok | herr
    · exact absurd (Dynamic.cbind_ck_ok_nrow a b hok) hn
    · exact herr
  · intro hdup
    apply Dynamic.cbind_mut_of_ck_err
    rcases Dynamic.except_unit_ok_or_err (a.cbind_ck b) with hok | herr
    · obtain ⟨kv, hkv, hk⟩ := hdup
      have := Dynamic.cbind_ck_ok_disjoint a b hok kv hkv
      rw [hk] at this
      simp at this
    · exact herr
  · intro hbad
    apply Dynamic.rbind_mut_of_ck_err
    rcases Dynamic.except_unit_ok_or_err (a.rbind_ck b) with hok | herr
    · exfalso
      obtain ⟨kv, hkv, hc⟩ := hbad
      have hbase : Dynamic.rbind_ck_base_go b a.columns = .ok () := by
        unfold Dynamic.DataFrame.rbind_ck Dynamic.DataFrame.rbind_ck_base at hok
        cases hb1 : Dynamic.rbind_ck_base_go b a.columns with
        | error e => rw [hb1] at hok; simp at hok
        | ok u => cases u; rfl
      obtain ⟨c, hl, hv⟩ := Dynamic.rbind_ck_base_go_ok b a.columns hbase kv hkv
      exact hc c ⟨hl, hv⟩
    · exact herr
  · intro hbad
    apply Dynamic.rbind_mut_of_ck_err
    rcases Dynamic.except_unit_ok_or_err (a.rbind_ck b) with hok | herr
    · exfalso
      obtain ⟨kv, hkv, hc⟩ := hbad
      have hbase : Dynamic.rbind_ck_base_go a b.columns = .ok () := by
        unfold Dynamic.DataFrame.rbind_ck Dynamic.DataFrame.rbind_ck_base at hok
        cases hb1 : Dynamic.rbind_ck_base_go b a.columns with
        | error e => rw [hb1] at hok; simp at hok
        | ok u =>
          cases u
          rw [hb1] at hok
          exact hok
      obtain ⟨c, hl, hv⟩ := Dynamic.rbind_ck_base_go_ok a b.columns hbase kv hkv
      exact hc c ⟨hl, hv⟩
    · exact herr

/-- Witness for C7: `dynA` (1 boolean row, column `x`) and `dynB` (2
factor rows, column `x`) are incompatible for both cbind and rbind, and
both in-place operations error out leaving the receiver exactly `dynA`. -/
theorem dynamic_bind_check_before_mutate_witness :
    (Dynamic.isErr (Fixtures.dynA.cbind_mut Fixtures.dynB).1 = true
      ∧ (Fixtures.dynA.cbind_mut Fixtures.dynB).2 = Fixtures.dynA)
    ∧ (Dynamic.isErr (Fixtures.dynA.rbind_mut Fixtures.dynB).1 = true
      ∧ (Fixtures.dynA.rbind_mut Fixtures.dynB).2 = Fixtures.dynA) := by
  have h := dynamic_bind_check_before_mutate Fixtures.dynA Fixtures.dynB
  refine ⟨h.2.2.1 (by decide), h.2.2.2.2.1 ?_⟩
  refine ⟨("x", .Boolean [true]), by simp [Fixtures.dynA], ?_⟩
  intro c hc
  obtain ⟨h1, h2⟩ := hc
  have hl : Dynamic.lookupCol Fixtures.dynB.columns "x"
      = some (.Factor ["a", "b"]) := rfl
  rw [hl] at h1
  injection h1 with h1
  subst h1
  exact absurd h2 (by decide)

namespace Dynamic

/-- Inserting a column of the right length preserves the all-columns
length bound. -/
theorem insertCol_allLen (cols : Columns) (k : String) (v : Column) (n : Nat)
    (hc : ∀ kv ∈ cols, Column.len kv.2 = n) (hv : Column.len v = n) :
    ∀ kv ∈ insertCol cols k v, Column.len kv.2 = n := by
  intro kv hkv
  unfold insertCol at hkv
  split at hkv
  · obtain ⟨kv', hkv', heq⟩ := List.mem_map.mp hkv
    split at heq
    · rw [← heq]; exact hv
    · rw [← heq]; exact hc kv' hkv'
  · rcases List.mem_append.mp hkv with h1 | h1
    · exact hc kv h1
    · rw [List.mem_singleton.mp h1]; exact hv

/-- Folding `insertCol` over bindings of the right length preserves the
all-columns length bound. -/
theorem foldl_insert_allLen (l : List (String × Column)) (acc : Columns) (n : Nat)
    (hacc : ∀ kv ∈ acc, Column.len kv.2 = n)
    (hl : ∀ kv ∈ l, Column.len kv.2 = n) :
    ∀ kv ∈ l.foldl (fun acc kv => insertCol acc kv.1 kv.2) acc,
      Column.len kv.2 = n := by
  induction l generalizing acc with
  | nil => exact hacc
  | cons a t ih =>
    simp only [List.foldl_cons]
    exact ih (insertCol acc a.1 a.2)
      (insertCol_allLen acc a.1 a.2 n hacc (hl a (List.mem_cons_self a t)))
      (fun kv hkv => hl kv (List.mem_cons_of_mem a hkv))

/-- A column found in a dictionary whose columns all have length `n` has
length `n`. -/
theorem lookupCol_len (cols : Columns) (k : String) (c : Column) (n : Nat)
    (hall : ∀ kv ∈ cols, Column.len kv.2 = n)
    (h : lookupCol cols k = some c) : Column.len c = n := by
  unfold lookupCol at h
  cases hf : cols.find? (fun kv => kv.1 == k) with
  | none => rw [hf] at h; simp at h
  | some kv =>
    rw [hf] at h
    simp at h
    rw [← h]
    exact hall kv (List.mem_of_find?_eq_some hf)

/-- A successful column extension adds the lengths. -/
theorem extendCol_len (u v w : Column) (h : Column.extendCol u v = some w) :
    Column.len w = Column.len u + Column.len v := by
  cases u <;> cases v <;> simp_all [Column.extendCol, Column.len] <;>
    rw [← h] <;> simp [Column.len]

/-- The rbind column loop turns columns of length `na` into columns of
length `na + other.nrow` whenever it succeeds. -/
theorem rbind_go_allLen (other : DataFrame) (l : List (String × Column))
    (cols : Columns) (na : Nat)
    (hl : ∀ kv ∈ l, Column.len kv.2 = na)
    (hother : other.inv)
    (h : rbind_go other l = .ok cols) :
    ∀ kv ∈ cols, Column.len kv.2 = na + other.nrow := by
  induction l generalizing cols with
  | nil =>
    simp only [rbind_go] at h
    injection h with h
    subst h
    intro kv hkv
    simp at hkv
  | cons a t ih =>
    obtain ⟨key, val⟩ := a
    unfold rbind_go at h
    cases ho : lookupCol other.columns key with
    | none =>
      simp only [ho] at h
      exact Except.noConfusion h
    | some ocol =>
      simp only [ho] at h
      cases he : Column.extendCol val ocol with
      | none =>
        simp only [he] at h
        exact Except.noConfusion h
      | some newcol =>
        simp only [he] at h
        cases hr : rbind_go other t with
        | error e =>
          simp only [hr] at h
          exact Except.noConfusion h
        | ok cols' =>
          simp only [hr] at h
          injection h with h
          subst h
          intro kv hkv
          rcases List.mem_cons.mp hkv with hkv | hkv
          · subst hkv
            show Column.len newcol = na + other.nrow
            rw [extendCol_len val ocol newcol he,
              hl (key, val) (List.mem_cons_self _ _),
              lookupCol_len other.columns key ocol other.nrow hother ho]
          · exact ih cols' (fun kv hkv => hl kv (List.mem_cons_of_mem _ hkv)) hr kv hkv

/-- The select column loop only accumulates columns of the frame's row
count. -/
theorem select_go_allLen (self : DataFrame) (l : List String)
    (acc cols : Columns) (n : Nat)
    (hself : ∀ kv ∈ self.columns, Column.len kv.2 = n)
    (hacc : ∀ kv ∈ acc, Column.len kv.2 = n)
    (h : select_go self l acc = .ok cols) :
    ∀ kv ∈ cols, Column.len kv.2 = n := by
  induction l generalizing acc with
  | nil =>
    simp only [select_go] at h
    injection h with h
    subst h
    exact hacc
  | cons col rest ih =>
    unfold select_go at h
    cases hc : lookupCol self.columns col with
    | none =>
      simp only [hc] at h
      exact Except.noConfusion h
    | some c =>
      simp only [hc] at h
      exact ih (insertCol acc col c)
        (insertCol_allLen acc col c n hacc
          (lookupCol_len self.columns col c n hself hc)) h

/-- Folding `removeCol` preserves the all-columns length bound. -/
theorem foldl_remove_allLen (l : List String) (acc : Columns) (n : Nat)
    (hacc : ∀ kv ∈ acc, Column.len kv.2 = n) :
    ∀ kv ∈ l.foldl (fun acc col => removeCol acc col) acc,
      Column.len kv.2 = n := by
  induction l generalizing acc with
  | nil => exact hacc
  | cons c t ih =>
    simp only [List.foldl_cons]
    exact ih (removeCol acc c) (fun kv hkv => hacc kv (List.mem_of_mem_filter hkv))

end Dynamic

/-- C10: the dynamic column-store's bookkeeping invariant — every stored
column's element count equals the frame's `nrow` — holds of the empty
frame and is preserved by `cbind`, `cbind_mut`, `rbind`, `rbind_mut`,
`select` and `select_mut` whenever their inputs satisfy it (the in-place
variants preserve it on both the success and the error path), so every
frame reachable from `new` through these operations satisfies it. -/
theorem dynamic_row_count_invariant (a b : Dynamic.DataFrame) (cols : List String)
    (ha : a.inv) (hb : b.inv) :
    Dynamic.DataFrame.new.inv
    ∧ (∀ c, a.cbind b = .ok c → c.inv)
    ∧ (a.cbind_mut b).2.inv
    ∧ (∀ c, a.rbind b = .ok c → c.inv)
    ∧ (a.rbind_mut b).2.inv
    ∧ (∀ c, a.select cols = .ok c → c.inv)
    ∧ (a.select_mut cols).2.inv := by
  refine ⟨?_, ?_, ?_, ?_, ?_, ?_, ?_⟩
  · intro kv hkv
    simp [Dynamic.DataFrame.new] at hkv
  · intro c hc
    unfold Dynamic.DataFrame.cbind at hc
    cases hck : a.cbind_ck b with
    | error e =>
      simp only [hck] at hc
      exact Except.noConfusion hc
    | ok u =>
      cases u
      have hn := Dynamic.cbind_ck_ok_nrow a b hck
      simp only [hck] at hc
      injection hc with hc
      subst hc
      intro kv hkv
      exact Dynamic.foldl_insert_allLen b.columns _ a.nrow
        (Dynamic.foldl_insert_allLen a.columns [] a.nrow (by simp) ha)
        (fun kv hkv => hn ▸ hb kv hkv) kv hkv
  · unfold Dynamic.DataFrame.cbind_mut
    cases hck : a.cbind_ck b with
    | error e => exact ha
    | ok u =>
      cases u
      have hn := Dynamic.cbind_ck_ok_nrow a b hck
      intro kv hkv
      exact Dynamic.foldl_insert_allLen b.columns a.columns a.nrow ha
        (fun kv hkv => hn ▸ hb kv hkv) kv hkv
  · intro c hc
    unfold Dynamic.DataFrame.rbind at hc
    cases hck : a.rbind_ck b with
    | error e =>
      simp only [hck] at hc
      exact Except.noConfusion hc
    | ok u =>
      cases u
      simp only [hck] at hc
      cases hgo : Dynamic.rbind_go b a.columns with
      | error e =>
        simp only [hgo] at hc
        exact Except.noConfusion hc
      | ok cols' =>
        simp only [hgo] at hc
        injection hc with hc
        subst hc
        exact Dynamic.rbind_go_allLen b a.columns cols' a.nrow ha hb hgo
  · unfold Dynamic.DataFrame.rbind_mut
    cases hck : a.rbind_ck b with
    | error e => exact ha
    | ok u =>
      cases u
      cases hgo : Dynamic.rbind_go b a.columns with
      | error e => exact ha
      | ok cols' =>
        exact Dynamic.rbind_go_allLen b a.columns cols' a.nrow ha hb hgo
  · intro c hc
    unfold Dynamic.DataFrame.select at hc
    cases hck : a.select_ck cols with
    | error e =>
      simp only [hck] at hc
      exact Except.noConfusion hc
    | ok u =>
      cases u
      simp only [hck] at hc
      cases hgo : Dynamic.select_go a cols [] with
      | error e =>
        simp only [hgo] at hc
        exact Except.noConfusion hc
      | ok cols' =>
        simp only [hgo] at hc
        injection hc with hc
        subst hc
        exact Dynamic.select_go_allLen a cols [] cols' a.nrow ha (by simp) hgo
  · unfold Dynamic.DataFrame.select_mut
    cases hck : a.select_ck cols with
    | error e => exact ha
    | ok u =>
      cases u
      intro kv hkv
      exact Dynamic.foldl_remove_allLen cols a.columns a.nrow ha kv hkv

/-- Witness for C10: binding `dynD`'s fresh factor column onto the two-row
boolean frame `dynC` in place keeps every column at exactly `nrow`
cells. -/
theorem dynamic_row_count_invariant_witness :
    (Fixtures.dynC.cbind_mut Fixtures.dynD).2.inv :=
  (dynamic_row_count_invariant Fixtures.dynC Fixtures.dynD ["x"]
    (by intro kv hkv; simp [Fixtures.dynC] at hkv; rw [hkv]; rfl)
    (by intro kv hkv; simp [Fixtures.dynD] at hkv; rw [hkv]; rfl)).2.2.1

end Dataframes
